import Mathlib

/-!
Shallow embedding of `src/Youtube_checker.py`, a sequential scraping script.

Browser/driver interactions are modelled by an environment record `Env` that
says, for each external step the script performs, whether it succeeds and what
value it yields; timestamps are integers (seconds); effects (navigations,
clicks, waits) and log lines are collected in lists so that claims about
"what the script does" (navigations performed, output printed, logs written)
become statements about these traces.
-/

namespace YoutubeChecker

/-- Severity levels of the `logging` module as used by the script. -/
inductive LogLevel where
  | info
  | warning
  | error
  | critical
deriving DecidableEq, Repr

/-- One log line: severity plus message text. -/
structure LogEntry where
  level : LogLevel
  msg : String
deriving DecidableEq, Repr

/-- Observable side effects of the script on the browser session. -/
inductive Effect where
  | navigate (url : String)
  | waitVisibleUploader
  | clickExpand
  | waitVisibleDescription
  | clickAccept
deriving DecidableEq, Repr

/-- Python string rendering of an optional string: `None` prints as `"None"`. -/
def pyStr : Option String → String
  | none => "None"
  | some s => s

/-- Attributes read from the first video container on the listing page:
`get_attribute "title"` and `get_attribute "href"` on the title link
(each may be absent, in which case Python yields `None`). -/
structure ListingItem where
  titleAttr : Option String
  href : Option String
deriving DecidableEq, Repr

/-- Environment for one `get_recent_video_info` call: the outcome of each
external interaction, in program order.  `none` / `false` for a wait or
element lookup means the corresponding Selenium call raises
(`TimeoutException`, `NoSuchElementException`, navigation error, ...). -/
structure Env where
  listingNavOk : Bool
  containerPresent : Bool
  titleLink : Option ListingItem
  metadataLineFound : Bool
  metadataSpans : List String
  parse : String → Option Int
  now : Int
  detailNavOk : Bool
  uploaderText : Option String
  expandClickable : Bool
  descriptionText : Option String

/-- `timedelta(hours=1)` in seconds. -/
def oneHour : Int := 3600

/-- The recency gate of line 101: `(now_aware - upload_date) < timedelta(hours=1)`. -/
def isFresh (now upload_date : Int) : Bool :=
  decide (now - upload_date < oneHour)

/-- The tuple returned on the success path (line 112):
`return uploader, title, date_str, video_url`. -/
structure VideoInfo where
  uploader : String
  titleAttr : Option String
  date_str : String
  video_url : Option String
deriving DecidableEq, Repr

/-- Result of one call: the value returned to the caller, plus the traces. -/
structure RunOut where
  result : Option VideoInfo
  effects : List Effect
  logs : List LogEntry

/-- The body of the `try:` block of `get_recent_video_info` (lines 74-115).
`Except.error e` models an exception `e` escaping the block;
`Except.ok r` models `return r` (with `r = none` for the two `return None`
paths inside the block: unparsable date and stale item). -/
def get_recent_video_info_body (env : Env) (channel_url : String) :
    Except String (Option VideoInfo) × List Effect × List LogEntry :=
  let listingUrl := channel_url ++ "/videos"
  let logs0 : List LogEntry := [⟨.info, "Checking channel: " ++ listingUrl⟩]
  let effs0 : List Effect := [.navigate listingUrl]
  if env.listingNavOk = false then
    (.error "WebDriverException", effs0, logs0)
  else if env.containerPresent = false then
    (.error "TimeoutException", effs0, logs0)
  else
    match env.titleLink with
    | none => (.error "NoSuchElementException", effs0, logs0)
    | some item =>
      if env.metadataLineFound = false then
        (.error "NoSuchElementException", effs0, logs0)
      else
        match env.metadataSpans[1]? with
        | none => (.error "IndexError", effs0, logs0)
        | some date_str =>
          match env.parse date_str with
          | none =>
            (.ok none, effs0,
              logs0 ++ [⟨.warning,
                "Could not parse date string " ++ date_str ++ " for " ++ channel_url⟩])
          | some upload_date =>
            if isFresh env.now upload_date then
              let logs1 := logs0 ++ [⟨.info,
                "RECENT VIDEO FOUND: " ++ pyStr item.titleAttr ++
                  ". Navigating to page for description."⟩]
              let effs1 := effs0 ++ [.navigate (pyStr item.href)]
              if env.detailNavOk = false then
                (.error "WebDriverException", effs1, logs1)
              else
                match env.uploaderText with
                | none => (.error "TimeoutException", effs1 ++ [.waitVisibleUploader], logs1)
                | some uploader =>
                  let effs2 := effs1 ++ [.waitVisibleUploader]
                  if env.expandClickable = false then
                    (.error "TimeoutException", effs2 ++ [.clickExpand], logs1)
                  else
                    let effs3 := effs2 ++ [.clickExpand]
                    match env.descriptionText with
                    | none =>
                      (.error "TimeoutException", effs3 ++ [.waitVisibleDescription], logs1)
                    | some description_text =>
                      (.ok (some ⟨uploader, item.titleAttr, date_str, item.href⟩),
                        effs3 ++ [.waitVisibleDescription],
                        logs1 ++ [⟨.info,
                          "--- Video Description ---" ++ description_text⟩])
            else
              (.ok none, effs0,
                logs0 ++ [⟨.info,
                  "Video for " ++ channel_url ++ " is older than 1 hour (" ++
                    date_str ++ "). Skipping page load."⟩])

/-- `get_recent_video_info` with its blanket handler (lines 117-119): any
exception from the body is logged at error severity and converted to `None`. -/
def get_recent_video_info (env : Env) (channel_url : String) : RunOut :=
  match get_recent_video_info_body env channel_url with
  | (.ok r, effs, logs) => ⟨r, effs, logs⟩
  | (.error e, effs, logs) =>
    ⟨none, effs, logs ++ [⟨.error,
      "an error occurred while processing " ++ channel_url ++ ": " ++ e⟩]⟩

/-- The print statement of line 160:
`print(f"{youtuber} - {title}\n{release_date}\nLink: {link}")`. -/
def printRecord (v : VideoInfo) : String :=
  v.uploader ++ " - " ++ pyStr v.titleAttr ++ "\n" ++ v.date_str ++ "\nLink: " ++ pyStr v.video_url

/-- The per-target loop of lines 156-160, one `(Env, url)` pair per channel
target.  Returns the list of lines written to standard output and the list of
targets on which `get_recent_video_info` was invoked, in order. -/
def mainLoopRun : List (Env × String) → List String × List String
  | [] => ([], [])
  | (env, url) :: rest =>
    let r := get_recent_video_info env url
    let (outs, atts) := mainLoopRun rest
    (match r.result with
     | some v => printRecord v :: outs
     | none => outs,
     url :: atts)

/-- The standard output produced by the per-target loop. -/
def mainLoop (targets : List (Env × String)) : List String :=
  (mainLoopRun targets).1

/-- The URL the consent-dismissal step navigates to (line 146), exactly as
written in the source. -/
def consentUrl : String := "httpshttps://www.youtube.com"

/-- The root page of the service. -/
def rootUrl : String := "https://www.youtube.com"

/-- The wait timeout of the consent step (line 148): `WebDriverWait(driver, 10)`. -/
def consentTimeout : Nat := 10

/-- The wait timeout used inside `get_recent_video_info` (line 73):
`WebDriverWait(driver, 20)`. -/
def extractorTimeout : Nat := 20

/-- Environment for the consent step: whether `driver.get(consentUrl)`
succeeds, and whether an Accept-all button becomes clickable within the
timeout. -/
structure ConsentEnv where
  navOk : Bool
  acceptClickable : Bool

def consentWarnMsg : String := "Consent button not found or not clickable, continuing..."

def consentInfoMsg : String := "Clicked the Accept all consent button."

/-- The consent-dismissal step (lines 145-154): navigate, wait for the button,
click; any exception is swallowed and logged as a warning.  Returns the
effects performed and the log lines written. -/
def dismissConsent (env : ConsentEnv) : List Effect × List LogEntry :=
  if env.navOk = false then
    ([.navigate consentUrl], [⟨.warning, consentWarnMsg⟩])
  else if env.acceptClickable = false then
    ([.navigate consentUrl], [⟨.warning, consentWarnMsg⟩])
  else
    ([.navigate consentUrl, .clickAccept], [⟨.info, consentInfoMsg⟩])

/-- Whether the first list is a prefix of the second. -/
def charPrefix : List Char → List Char → Bool
  | [], _ => true
  | _ :: _, [] => false
  | a :: as, b :: bs => a == b && charPrefix as bs

/-- Whether the first list occurs as a contiguous sublist of the second. -/
def charInfix (sub : List Char) : List Char → Bool
  | [] => charPrefix sub []
  | b :: bs => charPrefix sub (b :: bs) || charInfix sub bs

/-- Python substring containment `sub in s`. -/
def strContains (s sub : String) : Bool :=
  charInfix sub.toList s.toList

def aarch64Url : String :=
  "https://github.com/mozilla/geckodriver/releases/download/v0.36.0/geckodriver-v0.36.0-linux-aarch64.tar.gz"

def linux64Url : String :=
  "https://github.com/mozilla/geckodriver/releases/download/v0.36.0/geckodriver-v0.36.0-linux64.tar.gz"

/-- `get_geckodriver_path` (lines 35-66).  Inputs: `platform.system().lower()`,
`platform.machine().lower()`, `tempfile.gettempdir()`, and whether
`os.path.exists(gecko_path)` holds.  Returns the path (or `none`, the sentinel
meaning "let selenium manager handle it") and the list of download URLs
fetched. -/
def get_geckodriver_path (system arch tempDir : String) (geckoExists : Bool) :
    Option String × List String :=
  let gecko_path := tempDir ++ "/geckodriver"
  if strContains system "linux" && strContains arch "aarch64" then
    (some gecko_path, if geckoExists then [] else [aarch64Url])
  else if strContains system "linux" && strContains arch "x86_64" then
    (some gecko_path, if geckoExists then [] else [linux64Url])
  else
    (none, [])

/-- The caller side (lines 136-139): `service = None;
if geckodriver_path: service = Service(executable_path=geckodriver_path)`.
A `none` service means selenium falls back to default driver resolution.
Python truthiness makes the empty string falsy as well. -/
def serviceFromPath (p : Option String) : Option String :=
  match p with
  | none => none
  | some s => if s = "" then none else some s

def sessionStartError : String := "WebDriverException"

/-- The `try/finally` of lines 142-164 around the whole body.  `driver` is
initialised to `None` (line 134) and set only if `webdriver.Firefox` succeeds;
the `finally` block calls `driver.quit()` exactly when `driver` is set.
The second component records whether `quit` was called. -/
def mainCleanup (driverStarted : Bool) (body : Except String (List String)) :
    Except String (List String) × Bool :=
  if driverStarted then (body, true) else (.error sessionStartError, false)

/-- The whole `__main__` body after logging setup: start the session, run the
per-target loop (which never raises), release the session in `finally`. -/
def runMain (startOk : Bool) (targets : List (Env × String)) :
    Except String (List String) × Bool :=
  mainCleanup startOk (.ok (mainLoop targets))

/-- A fully succeeding environment: listing loads, first item present with
title attribute and href, two metadata spans, date parses to instant 1000
against now = 1500 (age 500 s, fresh), detail page succeeds with uploader
Acme and description DESC. -/
def envFresh : Env where
  listingNavOk := true
  containerPresent := true
  titleLink := some ⟨some "T", some "https://v"⟩
  metadataLineFound := true
  metadataSpans := ["12 views", "45 minutes ago"]
  parse := fun s => if s = "45 minutes ago" then some 1000 else none
  now := 1500
  detailNavOk := true
  uploaderText := some "Acme"
  expandClickable := true
  descriptionText := some "DESC"

/-- Like `envFresh` but the parsed instant is 3 hours before now: stale. -/
def envStale : Env where
  listingNavOk := true
  containerPresent := true
  titleLink := some ⟨some "U", some "https://w"⟩
  metadataLineFound := true
  metadataSpans := ["7 views", "3 hours ago"]
  parse := fun s => if s = "3 hours ago" then some 1000 else none
  now := 11800
  detailNavOk := true
  uploaderText := some "Bcme"
  expandClickable := true
  descriptionText := some "DESC2"

/-- Like `envFresh` but the metadata line has a single span, so the access to
the second span raises `IndexError`. -/
def envShortMeta : Env where
  listingNavOk := true
  containerPresent := true
  titleLink := some ⟨some "T", some "https://v"⟩
  metadataLineFound := true
  metadataSpans := ["12 views"]
  parse := fun _ => none
  now := 1500
  detailNavOk := true
  uploaderText := some "Acme"
  expandClickable := true
  descriptionText := some "DESC"

/-- Like `envFresh` but the date string does not parse. -/
def envNoParse : Env where
  listingNavOk := true
  containerPresent := true
  titleLink := some ⟨some "T", some "https://v"⟩
  metadataLineFound := true
  metadataSpans := ["12 views", "tomorrow-ish"]
  parse := fun _ => none
  now := 1500
  detailNavOk := true
  uploaderText := some "Acme"
  expandClickable := true
  descriptionText := some "DESC"

end YoutubeChecker

namespace YoutubeChecker

/-- C2: for every parsed timestamp `t` and comparison instant `now`, the gate
classifies fresh exactly when `now - t < 1` hour, with strict less-than: at
exactly one hour of age the item is stale, and a future timestamp (negative
age) is fresh. -/
theorem recency_gate_strict (now t : Int) :
    (isFresh now t = true ↔ now - t < oneHour)
    ∧ isFresh (t + oneHour) t = false
    ∧ (now - t < 0 → isFresh now t = true) := by
  refine ⟨by simp [isFresh], by simp [isFresh], fun h => ?_⟩
  simp only [isFresh, decide_eq_true_eq]
  have : (0 : Int) < oneHour := by decide
  omega

/-- Witness for C2 at concrete instants: age 59 minutes is fresh, age exactly
one hour is stale, a future timestamp is fresh. -/
theorem recency_gate_strict_witness :
    isFresh 3540 0 = true ∧ isFresh 3600 0 = false ∧ isFresh 0 100 = true := by
  refine ⟨(recency_gate_strict 3540 0).1.mpr (by decide),
    ?_,
    (recency_gate_strict 0 100).2.2 (by decide)⟩
  have h := (recency_gate_strict 3600 0).2.1
  simpa [oneHour] using h

/-- C1 (amended): when the recency gate passes and every detail-page step
succeeds, the extractor returns exactly the four-field record
`(uploader, title, date_str, video_url)`; the description is extracted and
logged but is not part of the returned value. -/
theorem fresh_success_returns_four_fields (env : Env) (url date_str uploader desc : String)
    (item : ListingItem) (t : Int)
    (h1 : env.listingNavOk = true) (h2 : env.containerPresent = true)
    (h3 : env.titleLink = some item) (h4 : env.metadataLineFound = true)
    (h5 : env.metadataSpans[1]? = some date_str)
    (h6 : env.parse date_str = some t)
    (h7 : isFresh env.now t = true)
    (h8 : env.detailNavOk = true)
    (h9 : env.uploaderText = some uploader)
    (h10 : env.expandClickable = true)
    (h11 : env.descriptionText = some desc) :
    (get_recent_video_info env url).result =
      some ⟨uploader, item.titleAttr, date_str, item.href⟩
    ∧ LogEntry.mk .info ("--- Video Description ---" ++ desc) ∈
        (get_recent_video_info env url).logs := by
  unfold get_recent_video_info get_recent_video_info_body
  simp [h1, h2, h3, h4, h5, h6, h7, h8, h9, h10, h11]

/-- Witness for C1 (amended) at the fully succeeding environment. -/
theorem fresh_success_returns_four_fields_witness :
    (get_recent_video_info envFresh "https://c").result =
      some ⟨"Acme", some "T", "45 minutes ago", some "https://v"⟩
    ∧ LogEntry.mk .info ("--- Video Description ---" ++ "DESC") ∈
        (get_recent_video_info envFresh "https://c").logs :=
  fresh_success_returns_four_fields envFresh "https://c" "45 minutes ago" "Acme" "DESC"
    ⟨some "T", some "https://v"⟩ 1000 rfl rfl rfl rfl rfl rfl rfl rfl rfl rfl rfl

/-- C1 counterexample: on a fully succeeding fresh run whose page description
is "DESC", the returned record consists of the four components publisher,
title, raw date string and detail URL, and the extracted description text
"DESC" is not among them: the returned result does not contain the
description field the claim asserts. -/
theorem returned_record_lacks_description :
    envFresh.descriptionText = some "DESC"
    ∧ ((get_recent_video_info envFresh "https://c").result).map
        (fun v => [v.uploader, pyStr v.titleAttr, v.date_str, pyStr v.video_url]) =
      some ["Acme", "T", "45 minutes ago", "https://v"]
    ∧ "DESC" ∉ (["Acme", "T", "45 minutes ago", "https://v"] : List String) := by
  refine ⟨rfl, rfl, by decide⟩

/-- C3: the blanket handler converts every exception escaping the body into an
absent result (callers never see an exception), and the per-target loop
invokes the extractor on every target in order, whatever each target's
environment does. -/
theorem errors_absorbed_targets_independent :
    (∀ (env : Env) (url e : String) (effs : List Effect) (logs : List LogEntry),
        get_recent_video_info_body env url = (.error e, effs, logs) →
        (get_recent_video_info env url).result = none)
    ∧ (∀ targets : List (Env × String),
        (mainLoopRun targets).2 = targets.map Prod.snd) := by
  constructor
  · intro env url e effs logs h
    unfold get_recent_video_info
    rw [h]
  · intro targets
    induction targets with
    | nil => rfl
    | cons p rest ih =>
      rcases p with ⟨env, url⟩
      simpa [mainLoopRun] using ih

/-- Witness for C3: a failing target (IndexError inside the body) yields an
absent result, and both targets of a two-target list are attempted even
though the first one fails. -/
theorem errors_absorbed_targets_independent_witness :
    (get_recent_video_info envShortMeta "https://c").result = none
    ∧ (mainLoopRun [(envShortMeta, "https://a"), (envFresh, "https://b")]).2 =
        ["https://a", "https://b"] :=
  ⟨errors_absorbed_targets_independent.1 envShortMeta "https://c" "IndexError" _ _ rfl,
    errors_absorbed_targets_independent.2 [(envShortMeta, "https://a"), (envFresh, "https://b")]⟩

/-- C4: when the date string does not parse, the extractor logs a warning and
returns an absent result; the only navigation performed is the listing page
(no detail page), and this holds for every value of `now` (no default
timestamp is substituted). -/
theorem unparsable_date_no_navigation (env : Env) (url date_str : String)
    (h1 : env.listingNavOk = true) (h2 : env.containerPresent = true)
    (h3 : ∃ item, env.titleLink = some item) (h4 : env.metadataLineFound = true)
    (h5 : env.metadataSpans[1]? = some date_str)
    (h6 : env.parse date_str = none) :
    (get_recent_video_info env url).result = none
    ∧ (get_recent_video_info env url).effects = [.navigate (url ++ "/videos")]
    ∧ LogEntry.mk .warning ("Could not parse date string " ++ date_str ++ " for " ++ url) ∈
        (get_recent_video_info env url).logs := by
  obtain ⟨item, h3⟩ := h3
  unfold get_recent_video_info get_recent_video_info_body
  simp [h1, h2, h3, h4, h5, h6]

/-- Witness for C4 at a concrete environment whose date string never parses. -/
theorem unparsable_date_no_navigation_witness :
    (get_recent_video_info envNoParse "https://c").result = none
    ∧ (get_recent_video_info envNoParse "https://c").effects =
        [.navigate ("https://c" ++ "/videos")]
    ∧ LogEntry.mk .warning
        ("Could not parse date string " ++ "tomorrow-ish" ++ " for " ++ "https://c") ∈
        (get_recent_video_info envNoParse "https://c").logs :=
  unparsable_date_no_navigation envNoParse "https://c" "tomorrow-ish"
    rfl rfl ⟨⟨some "T", some "https://v"⟩, rfl⟩ rfl rfl rfl

/-- C5: a stale item yields an absent result and the detail page is never
loaded: the effect trace is exactly the single listing navigation, with no
second navigation and no detail-page element interaction. -/
theorem stale_skips_detail_page (env : Env) (url date_str : String) (t : Int)
    (h1 : env.listingNavOk = true) (h2 : env.containerPresent = true)
    (h3 : ∃ item, env.titleLink = some item) (h4 : env.metadataLineFound = true)
    (h5 : env.metadataSpans[1]? = some date_str)
    (h6 : env.parse date_str = some t)
    (h7 : isFresh env.now t = false) :
    (get_recent_video_info env url).result = none
    ∧ (get_recent_video_info env url).effects = [.navigate (url ++ "/videos")] := by
  obtain ⟨item, h3⟩ := h3
  unfold get_recent_video_info get_recent_video_info_body
  simp [h1, h2, h3, h4, h5, h6, h7]

/-- Witness for C5 at a concrete stale environment (age 3 hours). -/
theorem stale_skips_detail_page_witness :
    (get_recent_video_info envStale "https://c").result = none
    ∧ (get_recent_video_info envStale "https://c").effects =
        [.navigate ("https://c" ++ "/videos")] :=
  stale_skips_detail_page envStale "https://c" "3 hours ago" 1000
    rfl rfl ⟨⟨some "U", some "https://w"⟩, rfl⟩ rfl rfl rfl rfl

/-- C10: when the metadata line holds fewer than two spans, the access to the
second span raises an IndexError inside the body; the blanket handler absorbs
it, logs it at error severity, and the call returns an absent result instead
of raising. -/
theorem short_metadata_line_absorbed (env : Env) (url : String)
    (h1 : env.listingNavOk = true) (h2 : env.containerPresent = true)
    (h3 : ∃ item, env.titleLink = some item) (h4 : env.metadataLineFound = true)
    (h5 : env.metadataSpans.length < 2) :
    (get_recent_video_info_body env url).1 = .error "IndexError"
    ∧ (get_recent_video_info env url).result = none
    ∧ LogEntry.mk .error
        ("an error occurred while processing " ++ url ++ ": " ++ "IndexError") ∈
        (get_recent_video_info env url).logs := by
  obtain ⟨item, h3⟩ := h3
  have h5' : env.metadataSpans[1]? = none := List.getElem?_eq_none (by omega)
  unfold get_recent_video_info get_recent_video_info_body
  simp [h1, h2, h3, h4, h5']

/-- Helper: a successful body run carries the raw second metadata span as its
`date_str` component, unchanged. -/
lemma body_ok_date_str (env : Env) (url : String) (v : VideoInfo)
    (h : (get_recent_video_info_body env url).1 = .ok (some v)) :
    env.metadataSpans[1]? = some v.date_str := by
  unfold get_recent_video_info_body at h
  repeat' split at h
  all_goals try simp_all
  all_goals rw [← h]

/-- Helper: a present result means the body returned it successfully, so its
`date_str` is the raw second metadata span. -/
lemma result_some_date_str (env : Env) (url : String) (v : VideoInfo)
    (h : (get_recent_video_info env url).result = some v) :
    env.metadataSpans[1]? = some v.date_str := by
  apply body_ok_date_str env url v
  unfold get_recent_video_info at h
  rcases hb : get_recent_video_info_body env url with ⟨r, effs, logs⟩
  rw [hb] at h
  cases r with
  | ok a =>
    simp only at h
    simp [h]
  | error e => simp at h

/-- C7: standard output is exactly one printed record per present result, in
target order, each of the form
`uploader ++ " - " ++ title ++ "\n" ++ date_str ++ "\nLink: " ++ url`, where
`date_str` is the raw string read from the listing page, verbatim; absent
(stale or failed) targets contribute no output. -/
theorem stdout_one_record_per_fresh_item :
    (∀ targets : List (Env × String),
        mainLoop targets = targets.filterMap
          (fun p => ((get_recent_video_info p.1 p.2).result).map printRecord))
    ∧ (∀ v : VideoInfo, printRecord v =
        v.uploader ++ " - " ++ pyStr v.titleAttr ++ "\n" ++ v.date_str ++ "\nLink: " ++
          pyStr v.video_url)
    ∧ (∀ (env : Env) (url : String) (v : VideoInfo),
        (get_recent_video_info env url).result = some v →
        env.metadataSpans[1]? = some v.date_str) := by
  refine ⟨?_, fun v => rfl, fun env url v h => result_some_date_str env url v h⟩
  intro targets
  induction targets with
  | nil => rfl
  | cons p rest ih =>
    rcases p with ⟨env, url⟩
    unfold mainLoop mainLoopRun
    cases hr : (get_recent_video_info env url).result <;>
      simp_all [mainLoop]

/-- Witness for C7: two targets, the first fresh (uploader Acme, raw date
string "45 minutes ago"), the second stale; output is exactly one record for
the first target with the raw string verbatim. -/
theorem stdout_one_record_per_fresh_item_witness :
    mainLoop [(envFresh, "https://c"), (envStale, "https://d")] =
      ["Acme - T\n45 minutes ago\nLink: https://v"]
    ∧ envFresh.metadataSpans[1]? = some "45 minutes ago" := by
  constructor
  · rw [stdout_one_record_per_fresh_item.1 [(envFresh, "https://c"), (envStale, "https://d")]]
    rfl
  · exact stdout_one_record_per_fresh_item.2.2 envFresh "https://c"
      ⟨"Acme", some "T", "45 minutes ago", some "https://v"⟩ rfl

/-- C6 evaluation at the code: the consent step always navigates to the
hardcoded URL "httpshttps://www.youtube.com" — which is not the service root
page and does not even begin with the https scheme — and then, with the
10-unit wait, swallows every failure (failed navigation, button absent or not
clickable) into a low-severity warning log, clicking the button when it is
clickable. -/
theorem consent_step_malformed_url :
    consentUrl = "httpshttps://www.youtube.com"
    ∧ consentUrl ≠ rootUrl
    ∧ charPrefix "https://".toList rootUrl.toList = true
    ∧ charPrefix "https://".toList consentUrl.toList = false
    ∧ consentTimeout = 10
    ∧ dismissConsent ⟨false, false⟩ = ([.navigate consentUrl], [⟨.warning, consentWarnMsg⟩])
    ∧ dismissConsent ⟨true, false⟩ = ([.navigate consentUrl], [⟨.warning, consentWarnMsg⟩])
    ∧ dismissConsent ⟨true, true⟩ =
        ([.navigate consentUrl, .clickAccept], [⟨.info, consentInfoMsg⟩]) := by
  exact ⟨rfl, by decide, by decide, by decide, rfl, rfl, rfl, rfl⟩

/-- C8: the session is released (`driver.quit()`) exactly when it was started,
for every outcome of the body, via the `finally` block; when start-up fails
the cleanup tolerates the `None` driver, skips the release, and the start-up
error propagates. -/
theorem session_cleanup_guaranteed (startOk : Bool) (body : Except String (List String))
    (targets : List (Env × String)) :
    (mainCleanup startOk body).2 = startOk
    ∧ (startOk = false → (mainCleanup startOk body).1 = .error sessionStartError)
    ∧ (runMain startOk targets).2 = startOk := by
  cases startOk <;> simp [mainCleanup, runMain]

/-- Witness for C8 with a failed start-up: no release, error propagates. -/
theorem session_cleanup_guaranteed_witness :
    (mainCleanup false (.ok [])).2 = false
    ∧ (mainCleanup false (.ok [])).1 = .error sessionStartError :=
  ⟨(session_cleanup_guaranteed false (.ok []) []).1,
    (session_cleanup_guaranteed false (.ok []) []).2.1 rfl⟩

/-- C9: an unrecognized platform/architecture combination yields the sentinel
and no download, after which the caller builds no explicit service (default
resolution); and for any combination, when the binary already exists at the
cached path nothing is downloaded (the existence check is the only check
performed on the cache). -/
theorem driver_resolution_fallback_and_cache (system arch tempDir : String)
    (geckoExists : Bool)
    (h1 : (strContains system "linux" && strContains arch "aarch64") = false)
    (h2 : (strContains system "linux" && strContains arch "x86_64") = false) :
    get_geckodriver_path system arch tempDir geckoExists = (none, [])
    ∧ serviceFromPath (get_geckodriver_path system arch tempDir geckoExists).1 = none
    ∧ (∀ sys2 arch2 dir2 : String, (get_geckodriver_path sys2 arch2 dir2 true).2 = []) := by
  have hmain : get_geckodriver_path system arch tempDir geckoExists = (none, []) := by
    unfold get_geckodriver_path
    simp [h1, h2]
  refine ⟨hmain, by rw [hmain]; rfl, ?_⟩
  intro sys2 arch2 dir2
  unfold get_geckodriver_path
  split_ifs <;> simp_all

/-- Witness for C9: on darwin/arm64 the sentinel is returned with no download
and the caller falls back; on linux/x86_64 with a cached binary no download
happens. -/
theorem driver_resolution_fallback_and_cache_witness :
    get_geckodriver_path "darwin" "arm64" "/tmp" false = (none, [])
    ∧ serviceFromPath (get_geckodriver_path "darwin" "arm64" "/tmp" false).1 = none
    ∧ (get_geckodriver_path "linux" "x86_64" "/tmp" true).2 = [] := by
  have h := driver_resolution_fallback_and_cache "darwin" "arm64" "/tmp" false
    (by decide) (by decide)
  exact ⟨h.1, h.2.1, h.2.2 "linux" "x86_64" "/tmp"⟩

/-- Witness for C10 at a concrete environment with a single metadata span. -/
theorem short_metadata_line_absorbed_witness :
    (get_recent_video_info_body envShortMeta "https://c").1 = .error "IndexError"
    ∧ (get_recent_video_info envShortMeta "https://c").result = none
    ∧ LogEntry.mk .error
        ("an error occurred while processing " ++ "https://c" ++ ": " ++ "IndexError") ∈
        (get_recent_video_info envShortMeta "https://c").logs :=
  short_metadata_line_absorbed envShortMeta "https://c"
    rfl rfl ⟨⟨some "T", some "https://v"⟩, rfl⟩ rfl (by decide)

end YoutubeChecker
